import Mathlib

/-!
Verification development for the Cloak security-gateway pipeline.

The definitions below are a shallow embedding of the TypeScript sources:
* `SecurityService.ts` — local pattern detection, threat-level
  classification, SLM response parsing/normalization and the merge of
  local and remote analyses;
* `Interceptor.ts` — the admission queue (`Interceptor.queuePrompt`,
  `Interceptor.processQueue`) and the decision engine (`Gatekeeper`);
* `ConfigurationService.ts` — the sensitivity-threshold table and the
  `PerformanceMonitor` queue statistics;
* the extension controller — degraded-mode analysis
  (`handleDegradedModeAnalysis`).

JavaScript numbers are modelled as rationals (`ℚ`): every constant in the
source (0.1, 0.3, 0.5, 0.6, 0.7, 0.9, 1.0) and every threshold comparison
is exact at these values, so no floating-point rounding is observable in
the verified properties.  Regular-expression matching is abstracted by an
oracle `PatternType → Option String` giving, for each of the four fixed
rule categories, the text of the first regex match in that category (or
`none` when no regex of the category matches); everything downstream of
the regex tables is embedded exactly.
-/

/-- Threat level of a prompt: `safe`, `suspicious` or `dangerous`. -/
inductive ThreatLevel where
  | safe
  | suspicious
  | dangerous
deriving DecidableEq, Repr

/-- Severity of a detected pattern. -/
inductive Severity where
  | low
  | medium
  | high
deriving DecidableEq, Repr

/-- The four fixed threat-pattern categories of the local detector. -/
inductive PatternType where
  | rule_bypass
  | secret_extraction
  | command_injection
  | role_manipulation
deriving DecidableEq, Repr

/-- `ThreatPattern` record (src/types): one detected indicator. -/
structure ThreatPattern where
  type : PatternType
  pattern : String
  severity : Severity
  description : String
deriving DecidableEq, Repr

/-- Source of an intercepted prompt. -/
inductive PromptSource where
  | chat
  | command
deriving DecidableEq, Repr

/-- `InterceptedPrompt` record; `timestamp` is epoch milliseconds. -/
structure InterceptedPrompt where
  id : String
  content : String
  timestamp : Nat
  source : PromptSource
deriving DecidableEq, Repr

/-- `SecurityAnalysis` record produced by the analysis pipeline. -/
structure SecurityAnalysis where
  threatLevel : ThreatLevel
  confidence : ℚ
  detectedPatterns : List ThreatPattern
  reasoning : String
  processingTime : Nat
deriving DecidableEq, Repr

/-- Enforcement action of a `SecurityDecision`. -/
inductive DecisionAction where
  | allow
  | block
  | warn
deriving DecidableEq, Repr

/-- `SecurityDecision` record produced by `Gatekeeper.makeDecision`;
`userOverride` is the optional override flag (absent = `none`,
mirroring the optional TypeScript field). -/
structure SecurityDecision where
  action : DecisionAction
  reason : String
  originalPrompt : InterceptedPrompt
  analysis : SecurityAnalysis
  userOverride : Option Bool := none
deriving DecidableEq, Repr

/-- Kind of an audit `SecurityEvent`. -/
inductive EventType where
  | analysis
  | block
  | allow
  | override
  | error
deriving DecidableEq, Repr

/-- `SecurityEvent` audit record logged by the `Gatekeeper`. -/
structure SecurityEvent where
  id : String
  timestamp : Nat
  eventType : EventType
  promptHash : String
  threatLevel : ThreatLevel
  confidence : ℚ
  decision : DecisionAction
  userOverride : Option Bool := none
  processingTime : Nat
deriving DecidableEq, Repr

/-- Sensitivity levels selecting a threshold profile. -/
inductive Sensitivity where
  | low
  | medium
  | high
deriving DecidableEq, Repr

/-- A `(blockThreshold, warnThreshold)` pair. -/
structure SensitivityThresholds where
  blockThreshold : ℚ
  warnThreshold : ℚ
deriving DecidableEq, Repr

/-- `SENSITIVITY_THRESHOLDS` table (ConfigurationService.ts):
low `{0.9, 0.7}`, medium `{0.7, 0.5}`, high `{0.5, 0.3}`. -/
def SENSITIVITY_THRESHOLDS : Sensitivity → SensitivityThresholds
  | .low => ⟨9/10, 7/10⟩
  | .medium => ⟨7/10, 5/10⟩
  | .high => ⟨5/10, 3/10⟩

/-- `GatekeeperConfig` (Interceptor.ts). -/
structure GatekeeperConfig where
  blockThreshold : ℚ
  warnThreshold : ℚ
  enableUserOverride : Bool
  enableAuditLog : Bool
deriving DecidableEq, Repr

/-- The literal string of a pattern type, as it appears in the
TypeScript union type. -/
def patternTypeName : PatternType → String
  | .rule_bypass => "rule_bypass"
  | .secret_extraction => "secret_extraction"
  | .command_injection => "command_injection"
  | .role_manipulation => "role_manipulation"

/-- `Gatekeeper.buildBlockReason`: prefix the distinct detected pattern
types, then the analysis reasoning. -/
def buildBlockReason (reasoning : String) (patterns : List ThreatPattern) : String :=
  let patternTypes := (patterns.map (·.type)).dedup
  let patternSummary :=
    if patternTypes.length > 0 then
      "Detected patterns: " ++ String.intercalate ", " (patternTypes.map patternTypeName) ++ ". "
    else ""
  patternSummary ++ reasoning

/-- `Gatekeeper.buildWarnReason`: like `buildBlockReason` with a
"Suspicious patterns" prefix. -/
def buildWarnReason (reasoning : String) (patterns : List ThreatPattern) : String :=
  let patternTypes := (patterns.map (·.type)).dedup
  let patternSummary :=
    if patternTypes.length > 0 then
      "Suspicious patterns: " ++ String.intercalate ", " (patternTypes.map patternTypeName) ++ ". "
    else ""
  patternSummary ++ reasoning

/-- `Gatekeeper.makeDecision` (Interceptor.ts lines 526-560): block on
dangerous with confidence at or above the block threshold; warn on any
other dangerous analysis or on suspicious with confidence at or above the
warn threshold; otherwise allow. -/
def makeDecision (config : GatekeeperConfig) (analysis : SecurityAnalysis)
    (prompt : InterceptedPrompt) : SecurityDecision :=
  if analysis.threatLevel = .dangerous ∧ analysis.confidence ≥ config.blockThreshold then
    { action := .block
      reason := buildBlockReason analysis.reasoning analysis.detectedPatterns
      originalPrompt := prompt
      analysis := analysis }
  else if analysis.threatLevel = .dangerous ∨
      (analysis.threatLevel = .suspicious ∧ analysis.confidence ≥ config.warnThreshold) then
    { action := .warn
      reason := buildWarnReason analysis.reasoning analysis.detectedPatterns
      originalPrompt := prompt
      analysis := analysis }
  else
    { action := .allow
      reason := "Prompt passed security analysis"
      originalPrompt := prompt
      analysis := analysis }

/-- Gatekeeper configuration obtained from a sensitivity profile, as the
extension controller applies it (`gatekeeper.updateConfig` with the
profile thresholds; the boolean flags keep their defaults). -/
def gatekeeperConfigOf (t : SensitivityThresholds) : GatekeeperConfig :=
  { blockThreshold := t.blockThreshold
    warnThreshold := t.warnThreshold
    enableUserOverride := true
    enableAuditLog := true }

/-- A threat-pattern category definition (SecurityService.ts).  The regex
list of the source is abstracted: which regex of a category matches a
given content is supplied by the match oracle of `detectThreatPatterns`. -/
structure ThreatPatternDefinition where
  type : PatternType
  severity : Severity
  description : String
deriving DecidableEq, Repr

/-- `RULE_BYPASS_PATTERNS` definition (severity high). -/
def RULE_BYPASS_PATTERNS : ThreatPatternDefinition :=
  ⟨.rule_bypass, .high, "Attempt to bypass or ignore system rules and instructions"⟩

/-- `SECRET_EXTRACTION_PATTERNS` definition (severity high). -/
def SECRET_EXTRACTION_PATTERNS : ThreatPatternDefinition :=
  ⟨.secret_extraction, .high, "Attempt to extract system secrets, API keys, or sensitive configuration"⟩

/-- `COMMAND_INJECTION_PATTERNS` definition (severity high). -/
def COMMAND_INJECTION_PATTERNS : ThreatPatternDefinition :=
  ⟨.command_injection, .high, "Attempt to execute unauthorized system commands or inject malicious code"⟩

/-- `ROLE_MANIPULATION_PATTERNS` definition (severity medium). -/
def ROLE_MANIPULATION_PATTERNS : ThreatPatternDefinition :=
  ⟨.role_manipulation, .medium, "Attempt to manipulate AI role or behavior through persona injection"⟩

/-- `ALL_THREAT_PATTERNS`, in source order. -/
def ALL_THREAT_PATTERNS : List ThreatPatternDefinition :=
  [RULE_BYPASS_PATTERNS, SECRET_EXTRACTION_PATTERNS,
   COMMAND_INJECTION_PATTERNS, ROLE_MANIPULATION_PATTERNS]

/-- `LocalDetectionResult` (SecurityService.ts). -/
structure LocalDetectionResult where
  hasThreats : Bool
  detectedPatterns : List ThreatPattern
  suggestedThreatLevel : ThreatLevel
deriving DecidableEq, Repr

/-- `SecurityService.classifyThreatLevel` (SecurityService.ts lines
335-364): level derivation from detected patterns and the maximum
severity accumulated while detecting. -/
def classifyThreatLevel (patterns : List ThreatPattern) (maxSeverity : Severity) :
    ThreatLevel :=
  if patterns.length = 0 then .safe
  else if (patterns.filter (fun p => p.severity = Severity.high)).length ≥ 2
      ∨ ((patterns.map (·.type)).dedup).length ≥ 3 then .dangerous
  else if maxSeverity = .high then .dangerous
  else if maxSeverity = .medium ∨ patterns.length ≥ 2 then .suspicious
  else .suspicious

/-- One iteration of the category loop of
`SecurityService.detectThreatPatterns`: when the oracle reports a first
regex match for the category, record exactly one indicator and update the
running maximum severity exactly as the source does. -/
def detectStep (oracle : PatternType → Option String)
    (acc : List ThreatPattern × Severity) (patternDef : ThreatPatternDefinition) :
    List ThreatPattern × Severity :=
  match oracle patternDef.type with
  | some matched =>
      let maxSeverity :=
        if patternDef.severity = Severity.high then Severity.high
        else if patternDef.severity = Severity.medium ∧ acc.2 ≠ Severity.high then
          Severity.medium
        else acc.2
      (acc.1 ++ [⟨patternDef.type, matched, patternDef.severity, patternDef.description⟩],
       maxSeverity)
  | none => acc

/-- `SecurityService.detectThreatPatterns` (SecurityService.ts lines
287-324).  The oracle gives, per category, the text of the first matching
regex of that category on the analyzed content, or `none` when no regex
of the category matches; the rest of the function is embedded exactly. -/
def detectThreatPatterns (oracle : PatternType → Option String) : LocalDetectionResult :=
  let r := ALL_THREAT_PATTERNS.foldl (detectStep oracle) ([], Severity.low)
  { hasThreats := decide (r.1.length > 0)
    detectedPatterns := r.1
    suggestedThreatLevel := classifyThreatLevel r.1 r.2 }

/-- Level-derivation rules exactly as the specification words them
(spec §4.1 rules 1-5), computed from the indicator list alone.  This is
the spec-side definition that the code-side
`classifyThreatLevel`/`detectThreatPatterns` pair is compared against. -/
def specLevelRules (patterns : List ThreatPattern) : ThreatLevel :=
  if patterns = [] then .safe
  else if (patterns.filter (fun p => p.severity = Severity.high)).length ≥ 2
      ∨ ((patterns.map (·.type)).dedup).length ≥ 3 then .dangerous
  else if patterns.any (fun p => p.severity = Severity.high) then .dangerous
  else if patterns.any (fun p => p.severity = Severity.medium) ∨ patterns.length ≥ 2 then
    .suspicious
  else .suspicious

/-- Numeric severity order used by
`SecurityService.getMoreSevereThreatLevel`. -/
def severityOrder : ThreatLevel → Nat
  | .safe => 0
  | .suspicious => 1
  | .dangerous => 2

/-- `SecurityService.getMoreSevereThreatLevel` (SecurityService.ts lines
480-486). -/
def getMoreSevereThreatLevel (level1 level2 : ThreatLevel) : ThreatLevel :=
  if severityOrder level1 ≥ severityOrder level2 then level1 else level2

/-- Pattern combination of `SecurityService.mergeAnalysisResults`: start
from the SLM patterns, then append each local pattern whose type is not
yet present, tracking the set of present types. -/
def mergePatterns (slmPatterns localPatterns : List ThreatPattern) : List ThreatPattern :=
  (localPatterns.foldl
    (fun acc p => if p.type ∈ acc.2 then acc else (acc.1 ++ [p], acc.2 ++ [p.type]))
    (slmPatterns, slmPatterns.map (·.type))).1

/-- `SecurityService.mergeAnalysisResults` (SecurityService.ts lines
429-475). -/
def mergeAnalysisResults (localDetection : LocalDetectionResult)
    (slmAnalysis : SecurityAnalysis) (processingTime : Nat) : SecurityAnalysis :=
  let combinedPatterns := mergePatterns slmAnalysis.detectedPatterns localDetection.detectedPatterns
  let threatLevel :=
    getMoreSevereThreatLevel localDetection.suggestedThreatLevel slmAnalysis.threatLevel
  let confidence :=
    if localDetection.hasThreats ∧ slmAnalysis.threatLevel ≠ ThreatLevel.safe then
      min 1 (slmAnalysis.confidence + 1/10)
    else if localDetection.hasThreats ∧ slmAnalysis.threatLevel = ThreatLevel.safe then
      (6 : ℚ)/10
    else slmAnalysis.confidence
  let reasoning :=
    if localDetection.hasThreats then
      slmAnalysis.reasoning ++ " Local detection also identified: " ++
        String.intercalate ", "
          (((localDetection.detectedPatterns.map (·.type)).dedup).map patternTypeName) ++ "."
    else slmAnalysis.reasoning
  { threatLevel := threatLevel
    confidence := confidence
    detectedPatterns := combinedPatterns
    reasoning := reasoning
    processingTime := processingTime }

/-- A JSON value, as produced by a successful `JSON.parse` of the SLM
reply.  Numbers are rationals (see the header note). -/
inductive JsonValue where
  | null
  | bool (b : Bool)
  | num (q : ℚ)
  | str (s : String)
  | arr (elems : List JsonValue)
  | obj (fields : List (String × JsonValue))
deriving Repr

/-- JavaScript property access `parsed.key`: a field of an object, or
`undefined` (here `none`) on anything else. -/
def JsonValue.getField : JsonValue → String → Option JsonValue
  | .obj fields, key => (fields.find? (fun f => f.1 = key)).map (·.2)
  | _, _ => none

/-- JavaScript `typeof p === "object" && p !== null`: true for objects
and arrays, false for null and the primitive values. -/
def isObjectLike : JsonValue → Bool
  | .obj _ => true
  | .arr _ => true
  | _ => false

/-- `SecurityService.normalizeThreatlevel` (the source casing): keep one
of the three enum strings, default everything else to suspicious. -/
def normalizeThreatlevel : Option JsonValue → ThreatLevel
  | some (.str s) =>
      if s = "safe" then .safe
      else if s = "suspicious" then .suspicious
      else if s = "dangerous" then .dangerous
      else .suspicious
  | _ => .suspicious

/-- `SecurityService.normalizeConfidence`: keep a number in `[0, 1]`,
default everything else to `0.5`. -/
def normalizeConfidence : Option JsonValue → ℚ
  | some (.num q) => if 0 ≤ q ∧ q ≤ 1 then q else 1/2
  | _ => 1/2

/-- `SecurityService.normalizePatternType`: keep one of the four valid
type strings, default to `rule_bypass`. -/
def normalizePatternType : Option JsonValue → PatternType
  | some (.str s) =>
      if s = "rule_bypass" then .rule_bypass
      else if s = "secret_extraction" then .secret_extraction
      else if s = "command_injection" then .command_injection
      else if s = "role_manipulation" then .role_manipulation
      else .rule_bypass
  | _ => .rule_bypass

/-- `SecurityService.normalizeSeverity`: keep one of the three valid
severity strings, default to medium. -/
def normalizeSeverity : Option JsonValue → Severity
  | some (.str s) =>
      if s = "low" then .low
      else if s = "medium" then .medium
      else if s = "high" then .high
      else .medium
  | _ => .medium

/-- JavaScript `String(v || "")` for the `pattern`/`description` fields.
String values are kept; the string rendering of the remaining (rare,
never inspected downstream) value shapes is abstracted to `""`. -/
def jsFieldString : Option JsonValue → String
  | some (.str s) => s
  | _ => ""

/-- One entry of `SecurityService.normalizePatterns`: coerce the four
fields of a (possibly malformed) object to a well-shaped
`ThreatPattern`. -/
def normalizePatternEntry (p : JsonValue) : ThreatPattern :=
  { type := normalizePatternType (p.getField "type")
    pattern := jsFieldString (p.getField "pattern")
    severity := normalizeSeverity (p.getField "severity")
    description := jsFieldString (p.getField "description") }

/-- `SecurityService.normalizePatterns` (SecurityService.ts lines
680-714): non-arrays give `[]`; non-object entries are dropped; the rest
are coerced field-wise. -/
def normalizePatterns : Option JsonValue → List ThreatPattern
  | some (.arr entries) => (entries.filter isObjectLike).map normalizePatternEntry
  | _ => []

/-- JavaScript `parsed.reasoning || "No reasoning provided"`: a
non-empty string is kept, everything falsy (or non-string, whose
rendering is never inspected by the claims) gives the default. -/
def reasoningField : Option JsonValue → String
  | some (.str s) => if s = "" then "No reasoning provided" else s
  | _ => "No reasoning provided"

/-- `SecurityService.parseAnalysisResponse` (SecurityService.ts lines
615-655).  The argument is the result of the markdown stripping plus
`JSON.parse`: `none` when parsing threw (missing or unparseable body). -/
def parseAnalysisResponse (parsed : Option JsonValue) (processingTime : Nat) :
    SecurityAnalysis :=
  match parsed with
  | none =>
      { threatLevel := .suspicious
        confidence := 1/2
        detectedPatterns := []
        reasoning := "Failed to parse security analysis response"
        processingTime := processingTime }
  | some j =>
      { threatLevel := normalizeThreatlevel (j.getField "threatLevel")
        confidence := normalizeConfidence (j.getField "confidence")
        detectedPatterns := normalizePatterns (j.getField "detectedPatterns")
        reasoning := reasoningField (j.getField "reasoning")
        processingTime := processingTime }

/-- Error condition of a failed SLM call, as discriminated by
`SecurityService.handleAnalysisError`. -/
inductive AnalysisError where
  | connRefused
  | timedOut
  | apiError (status : Nat)
  | network (msg : String)
  | other (msg : String)
deriving DecidableEq, Repr

/-- Reasoning string computed by `SecurityService.handleAnalysisError`
for each error condition. -/
def errorReasoning : AnalysisError → String
  | .connRefused => "Ollama service is not running or unreachable"
  | .timedOut => "Security analysis timed out"
  | .apiError status => "Ollama API error: " ++ toString status
  | .network msg => "Network error: " ++ msg
  | .other msg => msg

/-- `SecurityService.handleAnalysisError` (SecurityService.ts lines
719-744): a suspicious analysis at confidence 0 with the error-derived
reasoning. -/
def handleAnalysisError (e : AnalysisError) (processingTime : Nat) : SecurityAnalysis :=
  { threatLevel := .suspicious
    confidence := 0
    detectedPatterns := []
    reasoning := errorReasoning e
    processingTime := processingTime }

/-- `SecurityService.analyzePrompt` (SecurityService.ts lines 373-419),
with the SLM call abstracted to its outcome: `Except.ok parsed` is an
HTTP success whose body parsed to `parsed` (`none` = unparseable JSON),
`Except.error e` is a failed or empty-bodied call.  On failure with local
threats the source returns the local result at the fixed confidence 0.7;
on failure without local threats it falls to `handleAnalysisError`. -/
def analyzePrompt (oracle : PatternType → Option String)
    (remote : Except AnalysisError (Option JsonValue)) (processingTime : Nat) :
    SecurityAnalysis :=
  let localDetection := detectThreatPatterns oracle
  match remote with
  | .ok parsed =>
      mergeAnalysisResults localDetection (parseAnalysisResponse parsed processingTime)
        processingTime
  | .error e =>
      if localDetection.hasThreats then
        { threatLevel := localDetection.suggestedThreatLevel
          confidence := (7 : ℚ)/10
          detectedPatterns := localDetection.detectedPatterns
          reasoning := "Local pattern detection identified threats (SLM unavailable)"
          processingTime := processingTime }
      else handleAnalysisError e processingTime

/-- The analysis constructed by the extension controller's
`handleDegradedModeAnalysis` when the pipeline is already in degraded
mode: local detection only, confidence 0.6 with threats and 0.3
without, fixed unavailability reasoning, processing time 0. -/
def degradedModeAnalysis (oracle : PatternType → Option String) : SecurityAnalysis :=
  let localDetection := detectThreatPatterns oracle
  { threatLevel := localDetection.suggestedThreatLevel
    confidence := if localDetection.hasThreats then (6 : ℚ)/10 else (3 : ℚ)/10
    detectedPatterns := localDetection.detectedPatterns
    reasoning := "Local pattern detection only (SLM unavailable)"
    processingTime := 0 }

/-- The analysis produced for one prompt by the extension controller's
`handlePromptAnalysis`: the degraded-mode branch skips the SLM entirely;
otherwise `SecurityService.analyzePrompt` runs with the given remote
outcome. -/
def pipelineAnalysis (isDegradedMode : Bool) (oracle : PatternType → Option String)
    (remote : Except AnalysisError (Option JsonValue)) (processingTime : Nat) :
    SecurityAnalysis :=
  if isDegradedMode then degradedModeAnalysis oracle
  else analyzePrompt oracle remote processingTime

/-- The fresh decision object built by the spread
`{...decision, action: "allow", userOverride: true, reason: ...}` in
`Gatekeeper.handleUserOverride`. -/
def overriddenDecision (decision : SecurityDecision) : SecurityDecision :=
  { decision with
      action := .allow
      userOverride := some true
      reason := "User override: " ++ decision.reason }

/-- The audit event logged by `Gatekeeper.handleUserOverride` on a
confirmed override; `promptHash` abstracts the SHA-256 digest. -/
def overrideAuditEvent (decision : SecurityDecision) (eventId : String) (now : Nat)
    (promptHash : String → String) : SecurityEvent :=
  { id := eventId
    timestamp := now
    eventType := .override
    promptHash := promptHash decision.originalPrompt.content
    threatLevel := decision.analysis.threatLevel
    confidence := decision.analysis.confidence
    decision := .allow
    userOverride := some true
    processingTime := decision.analysis.processingTime }

/-- `Gatekeeper.handleUserOverride` (Interceptor.ts lines 702-745).
`confirmed` is whether the modal dialog returned the explicit
"Yes, I understand the risks" choice.  The second component is the list
of audit events the call hands to `logSecurityEvent`. -/
def handleUserOverride (decision : SecurityDecision) (confirmed : Bool)
    (eventId : String) (now : Nat) (promptHash : String → String) :
    Option SecurityDecision × List SecurityEvent :=
  if confirmed then
    (some (overriddenDecision decision), [overrideAuditEvent decision eventId now promptHash])
  else
    (none, [])

/-- Object-identity model of `Gatekeeper.handleUserOverride` for the
mutation question: decisions live in a store indexed by reference; the
source builds the overridden decision by object spread, i.e. allocates a
fresh object (appended here) and writes nothing through the input
reference. -/
def handleUserOverrideStore (store : List SecurityDecision) (ref : Nat)
    (confirmed : Bool) : Option Nat × List SecurityDecision :=
  match store.get? ref with
  | none => (none, store)
  | some decision =>
      if confirmed then (some store.length, store ++ [overriddenDecision decision])
      else (none, store)

/-- `QueueStats` of the `PerformanceMonitor`
(ConfigurationService.ts).  The rolling average wait time is omitted:
no verified property reads it. -/
structure QueueStats where
  currentSize : Nat
  peakSize : Nat
  totalProcessed : Nat
  droppedRequests : Nat
deriving DecidableEq, Repr

/-- State of a `PerformanceMonitor` relevant to queue admission. -/
structure MonitorState where
  maxQueueSize : Nat
  queueStats : QueueStats
deriving DecidableEq, Repr

/-- `PerformanceMonitor.canAcceptRequest`
(ConfigurationService.ts line 1168). -/
def canAcceptRequest (m : MonitorState) : Bool :=
  m.queueStats.currentSize < m.maxQueueSize

/-- `PerformanceMonitor.recordDroppedRequest`
(ConfigurationService.ts lines 1036-1041). -/
def recordDroppedRequest (m : MonitorState) : MonitorState :=
  { m with queueStats :=
      { m.queueStats with droppedRequests := m.queueStats.droppedRequests + 1 } }

/-- `PerformanceMonitor.updateQueueStats`
(ConfigurationService.ts): set the current size and bump the peak. -/
def updateQueueStats (m : MonitorState) (currentSize : Nat) : MonitorState :=
  { m with queueStats :=
      { m.queueStats with
          currentSize := currentSize
          peakSize := max m.queueStats.peakSize currentSize } }

/-- A `QueuedRequest` of the `Interceptor` admission queue; the promise
callbacks are represented by the queued prompt itself (the worker
resolves a request with `request.prompt`). -/
structure QueuedRequest where
  prompt : InterceptedPrompt
  queuedAt : Nat
deriving DecidableEq, Repr

/-- `Interceptor` state relevant to queue admission: the FIFO request
queue, the hard cap (source default 100), and the optional attached
performance monitor. -/
structure InterceptorState where
  requestQueue : List QueuedRequest
  maxQueueSize : Nat
  performanceMonitor : Option MonitorState
deriving DecidableEq, Repr

/-- Synchronous outcome of `Interceptor.queuePrompt` for the submitter:
the rejection reasons are the `Error` messages of the source; `queued`
means the request entered the queue. -/
inductive QueueResult where
  | cancelled
  | capacityExceeded
  | queued
deriving DecidableEq, Repr

/-- Whether the monitor branch of `Interceptor.queuePrompt` rejects:
`this.performanceMonitor && !this.performanceMonitor.canAcceptRequest()`. -/
def monitorRejects : Option MonitorState → Bool
  | some m => !canAcceptRequest m
  | none => false

/-- `Interceptor.queuePrompt` (Interceptor.ts lines 245-300), up to the
synchronous outcome returned to the submitter: cancellation check, the
monitor capacity check (which also increments the drop counter), the
interceptor's own capacity check (which does not), then the push and
the queue-stats update. -/
def queuePrompt (st : InterceptorState) (prompt : InterceptedPrompt)
    (cancellationRequested : Bool) (now : Nat) : QueueResult × InterceptorState :=
  if cancellationRequested then (.cancelled, st)
  else if monitorRejects st.performanceMonitor then
    (.capacityExceeded,
     { st with performanceMonitor := st.performanceMonitor.map recordDroppedRequest })
  else if st.requestQueue.length ≥ st.maxQueueSize then (.capacityExceeded, st)
  else
    let requestQueue := st.requestQueue ++ [⟨prompt, now⟩]
    (.queued,
     { st with
         requestQueue := requestQueue
         performanceMonitor :=
           st.performanceMonitor.map (fun m => updateQueueStats m requestQueue.length) })

/-- Outcome delivered to one submitter by the queue worker. -/
inductive WorkerResult where
  | resolved (prompt : InterceptedPrompt)
  | rejected (msg : String)
deriving DecidableEq, Repr

/-- The drain loop of `Interceptor.processQueue` (Interceptor.ts lines
307-349): each queued request is shifted in FIFO order, the prompt
handler runs on `request.prompt` (its outcome abstracted by
`handlerError`, `none` = no exception), and the submitter's promise is
resolved with the very `request.prompt` that was enqueued, or rejected
with the handler's error. -/
def processQueue (handlerError : InterceptedPrompt → Option String)
    (queue : List QueuedRequest) : List WorkerResult :=
  queue.map (fun request =>
    match handlerError request.prompt with
    | none => .resolved request.prompt
    | some msg => .rejected msg)

/-- Helper: the action of `makeDecision` as a single conditional. -/
theorem makeDecision_action_cases (config : GatekeeperConfig) (analysis : SecurityAnalysis)
    (prompt : InterceptedPrompt) :
    (makeDecision config analysis prompt).action =
      if analysis.threatLevel = ThreatLevel.dangerous
          ∧ analysis.confidence ≥ config.blockThreshold then DecisionAction.block
      else if analysis.threatLevel = ThreatLevel.dangerous
          ∨ (analysis.threatLevel = ThreatLevel.suspicious
              ∧ analysis.confidence ≥ config.warnThreshold) then DecisionAction.warn
      else DecisionAction.allow := by
  unfold makeDecision
  split_ifs <;> rfl

/-- C1: for every configuration and analysis, `Gatekeeper.makeDecision`
returns `block` exactly when the threat level is dangerous with
confidence at or above the block threshold; `warn` exactly when the
threat level is dangerous with confidence below the block threshold or
suspicious with confidence at or above the warn threshold; `allow` in
all other cases; and with the medium profile a suspicious analysis at
confidence 0.55 yields `warn` while one at 0.4 yields `allow`. -/
theorem decision_engine_action_spec (config : GatekeeperConfig)
    (analysis : SecurityAnalysis) (prompt : InterceptedPrompt) :
    ((makeDecision config analysis prompt).action = DecisionAction.block
      ↔ analysis.threatLevel = ThreatLevel.dangerous
          ∧ analysis.confidence ≥ config.blockThreshold)
    ∧ ((makeDecision config analysis prompt).action = DecisionAction.warn
      ↔ (analysis.threatLevel = ThreatLevel.dangerous
            ∧ analysis.confidence < config.blockThreshold)
        ∨ (analysis.threatLevel = ThreatLevel.suspicious
            ∧ analysis.confidence ≥ config.warnThreshold))
    ∧ ((makeDecision config analysis prompt).action = DecisionAction.allow
      ↔ ¬(analysis.threatLevel = ThreatLevel.dangerous
            ∧ analysis.confidence ≥ config.blockThreshold)
        ∧ ¬((analysis.threatLevel = ThreatLevel.dangerous
              ∧ analysis.confidence < config.blockThreshold)
            ∨ (analysis.threatLevel = ThreatLevel.suspicious
                ∧ analysis.confidence ≥ config.warnThreshold)))
    ∧ (analysis.threatLevel = ThreatLevel.suspicious → analysis.confidence = 11/20 →
        (makeDecision (gatekeeperConfigOf (SENSITIVITY_THRESHOLDS .medium))
            analysis prompt).action = DecisionAction.warn)
    ∧ (analysis.threatLevel = ThreatLevel.suspicious → analysis.confidence = 2/5 →
        (makeDecision (gatekeeperConfigOf (SENSITIVITY_THRESHOLDS .medium))
            analysis prompt).action = DecisionAction.allow) := by
  have h := makeDecision_action_cases config analysis prompt
  have hm := makeDecision_action_cases
    (gatekeeperConfigOf (SENSITIVITY_THRESHOLDS .medium)) analysis prompt
  refine ⟨?_, ?_, ?_, ?_, ?_⟩
  · rw [h]; split_ifs with h1 h2
    · exact iff_of_true rfl h1
    · exact iff_of_false (by decide) h1
    · exact iff_of_false (by decide) h1
  · rw [h]; split_ifs with h1 h2
    · refine iff_of_false (by decide) ?_
      rintro (⟨hd, hlt⟩ | ⟨hs, hw⟩)
      · exact absurd h1.2 (not_le.mpr hlt)
      · rw [h1.1] at hs; cases hs
    · refine iff_of_true rfl ?_
      rcases h2 with hd | hsw
      · exact Or.inl ⟨hd, not_le.mp fun hge => h1 ⟨hd, hge⟩⟩
      · exact Or.inr hsw
    · refine iff_of_false (by decide) ?_
      rintro (⟨hd, hlt⟩ | hsw)
      · exact h2 (Or.inl hd)
      · exact h2 (Or.inr hsw)
  · rw [h]; split_ifs with h1 h2
    · refine iff_of_false (by decide) ?_
      rintro ⟨ha, hb⟩; exact ha h1
    · refine iff_of_false (by decide) ?_
      rintro ⟨ha, hb⟩
      rcases h2 with hd | hsw
      · exact hb (Or.inl ⟨hd, not_le.mp fun hge => ha ⟨hd, hge⟩⟩)
      · exact hb (Or.inr hsw)
    · refine iff_of_true rfl ⟨h1, ?_⟩
      rintro (⟨hd, hlt⟩ | hsw)
      · exact h2 (Or.inl hd)
      · exact h2 (Or.inr hsw)
  · intro hs hc
    rw [hm, hs, hc]
    norm_num [gatekeeperConfigOf, SENSITIVITY_THRESHOLDS]
  · intro hs hc
    rw [hm, hs, hc]
    norm_num [gatekeeperConfigOf, SENSITIVITY_THRESHOLDS]
    decide

/-- Witness for C1: the medium-profile warn-threshold scenario at a
concrete suspicious analysis with confidence 0.55. -/
theorem decision_engine_action_spec_witness :
    (makeDecision (gatekeeperConfigOf (SENSITIVITY_THRESHOLDS .medium))
        ⟨ThreatLevel.suspicious, 11/20, [], "r", 3⟩
        ⟨"p1", "hello", 0, .chat⟩).action = DecisionAction.warn :=
  (decision_engine_action_spec (gatekeeperConfigOf (SENSITIVITY_THRESHOLDS .medium))
      ⟨ThreatLevel.suspicious, 11/20, [], "r", 3⟩
      ⟨"p1", "hello", 0, .chat⟩).2.2.2.1 rfl rfl

/-- C5: the merged threat level equals
`getMoreSevereThreatLevel local remote`, and for every pair of levels
that function returns the more severe of the two under the total order
safe < suspicious < dangerous (it attains the maximum severity and is
one of its two inputs). -/
theorem merge_threat_level_monotone (localDetection : LocalDetectionResult)
    (slmAnalysis : SecurityAnalysis) (processingTime : Nat) :
    (mergeAnalysisResults localDetection slmAnalysis processingTime).threatLevel
        = getMoreSevereThreatLevel localDetection.suggestedThreatLevel slmAnalysis.threatLevel
      ∧ ∀ level1 level2,
          severityOrder (getMoreSevereThreatLevel level1 level2)
              = max (severityOrder level1) (severityOrder level2)
            ∧ (getMoreSevereThreatLevel level1 level2 = level1
                ∨ getMoreSevereThreatLevel level1 level2 = level2) := by
  refine ⟨rfl, ?_⟩
  intro level1 level2
  cases level1 <;> cases level2 <;> exact ⟨by decide, by decide⟩

/-- A concrete prompt used by the witnesses and counterexamples. -/
def examplePrompt : InterceptedPrompt := ⟨"prompt-1", "hello world", 0, .chat⟩

/-- A concrete safe analysis. -/
def exampleSafeAnalysis : SecurityAnalysis := ⟨.safe, 9/10, [], "ok", 4⟩

/-- C9: safe pass-through integrity.  `makeDecision` embeds the very
prompt it was given as `originalPrompt` (so its content is byte-for-byte
the submitted content), and the queue worker of `processQueue` resolves
each submitter whose handler did not throw with the identical prompt
that was enqueued, position by position. -/
theorem allow_passthrough_integrity (config : GatekeeperConfig)
    (analysis : SecurityAnalysis) (prompt : InterceptedPrompt) :
    ((makeDecision config analysis prompt).action = DecisionAction.allow →
        (makeDecision config analysis prompt).originalPrompt = prompt
          ∧ (makeDecision config analysis prompt).originalPrompt.content = prompt.content)
      ∧ ∀ (handlerError : InterceptedPrompt → Option String) (queue : List QueuedRequest)
          (i : Nat) (hi : i < queue.length),
          handlerError (queue[i].prompt) = none →
            (processQueue handlerError queue)[i]?
              = some (WorkerResult.resolved queue[i].prompt) := by
  constructor
  · intro _
    have horig : (makeDecision config analysis prompt).originalPrompt = prompt := by
      unfold makeDecision; split_ifs <;> rfl
    exact ⟨horig, by rw [horig]⟩
  · intro handlerError queue i hi hok
    unfold processQueue
    rw [List.getElem?_map, List.getElem?_eq_getElem hi]
    simp [hok]

/-- Witness for C9: a safe analysis passes the identical prompt object
through the decision, and a one-element queue resolves with the
enqueued prompt. -/
theorem allow_passthrough_integrity_witness :
    (makeDecision (gatekeeperConfigOf (SENSITIVITY_THRESHOLDS .medium))
        exampleSafeAnalysis examplePrompt).originalPrompt = examplePrompt
      ∧ (processQueue (fun _ => none) [⟨examplePrompt, 0⟩])[0]?
          = some (WorkerResult.resolved examplePrompt) := by
  constructor
  · exact ((allow_passthrough_integrity (gatekeeperConfigOf (SENSITIVITY_THRESHOLDS .medium))
      exampleSafeAnalysis examplePrompt).1 (by decide)).1
  · exact (allow_passthrough_integrity (gatekeeperConfigOf (SENSITIVITY_THRESHOLDS .medium))
      exampleSafeAnalysis examplePrompt).2 (fun _ => none) [⟨examplePrompt, 0⟩] 0
      (by decide) rfl

/-- A concrete suspicious analysis. -/
def exampleWarnAnalysis : SecurityAnalysis :=
  ⟨.suspicious, 11/20, [], "boundary testing", 5⟩

/-- A concrete decision whose action is warn, not block. -/
def exampleWarnDecision : SecurityDecision :=
  { action := .warn
    reason := "Suspicious activity"
    originalPrompt := examplePrompt
    analysis := exampleWarnAnalysis }

/-- C3 counterexample: `Gatekeeper.handleUserOverride` performs no
check that the input decision's action is `block` — on a decision whose
action is `warn`, a confirmed override still returns an overridden
decision with action `allow` instead of failing. -/
theorem override_accepts_non_block_counterexample :
    exampleWarnDecision.action ≠ DecisionAction.block
      ∧ (handleUserOverride exampleWarnDecision true "evt-1" 0 id).1
          = some (overriddenDecision exampleWarnDecision)
      ∧ (overriddenDecision exampleWarnDecision).action = DecisionAction.allow := by
  exact ⟨by decide, rfl, rfl⟩

/-- C3 (amended): `handleUserOverride` requires the explicit
confirmation signal and is never silently granted — on non-confirmation
it returns null and logs nothing; on confirmation it returns a fresh
decision with action `allow` and the override flag set, and hands the
audit sink exactly one event of kind `override`.  The operation itself
does not validate that the input action is `block`; its only call site
(`showBlockNotification`) invokes it for block decisions alone. -/
theorem override_confirmation_contract (decision : SecurityDecision)
    (eventId : String) (now : Nat) (digest : String → String) :
    handleUserOverride decision false eventId now digest = (none, [])
      ∧ (handleUserOverride decision true eventId now digest).1
          = some (overriddenDecision decision)
      ∧ (overriddenDecision decision).action = DecisionAction.allow
      ∧ (overriddenDecision decision).userOverride = some true
      ∧ (handleUserOverride decision true eventId now digest).2.map (·.eventType)
          = [EventType.override] := by
  exact ⟨rfl, rfl, rfl, rfl, rfl⟩

/-- A concrete dangerous analysis. -/
def exampleBlockAnalysis : SecurityAnalysis :=
  ⟨.dangerous, 9/10, [], "clear manipulation attempt", 6⟩

/-- A concrete block decision. -/
def exampleBlockDecision : SecurityDecision :=
  { action := .block
    reason := "Detected patterns"
    originalPrompt := examplePrompt
    analysis := exampleBlockAnalysis }

/-- C10: in the object-store model of `handleUserOverride`, a confirmed
override leaves the input decision object completely unchanged — its
action, override flag and reason are still what they were — and returns
a reference to a distinct, freshly built decision with action `allow`
and the override flag set. -/
theorem override_never_mutates_input (store : List SecurityDecision) (ref : Nat)
    (decision : SecurityDecision) (hget : store[ref]? = some decision) :
    ((handleUserOverrideStore store ref true).2)[ref]? = some decision
      ∧ (∃ j, (handleUserOverrideStore store ref true).1 = some j
          ∧ j ≠ ref
          ∧ ((handleUserOverrideStore store ref true).2)[j]?
              = some (overriddenDecision decision))
      ∧ (((handleUserOverrideStore store ref true).2)[ref]?.map (·.action)
          = some decision.action)
      ∧ (((handleUserOverrideStore store ref true).2)[ref]?.map (·.userOverride)
          = some decision.userOverride)
      ∧ (((handleUserOverrideStore store ref true).2)[ref]?.map (·.reason)
          = some decision.reason) := by
  have hlt : ref < store.length := by
    by_contra hge
    rw [List.getElem?_eq_none (Nat.le_of_not_lt hge)] at hget
    cases hget
  have hstore : handleUserOverrideStore store ref true
      = (some store.length, store ++ [overriddenDecision decision]) := by
    unfold handleUserOverrideStore
    rw [List.get?_eq_getElem?, hget]
    rfl
  have hkeep : (store ++ [overriddenDecision decision])[ref]? = some decision := by
    rw [List.getElem?_append_left hlt]; exact hget
  refine ⟨?_, ⟨store.length, ?_, ?_, ?_⟩, ?_, ?_, ?_⟩
  · rw [hstore]; exact hkeep
  · rw [hstore]
  · exact fun h => absurd hlt (by rw [← h]; exact lt_irrefl _)
  · rw [hstore]
    simp
  · rw [hstore, hkeep]; rfl
  · rw [hstore, hkeep]; rfl
  · rw [hstore, hkeep]; rfl

/-- Witness for C10: a one-decision store, overriding the decision at
reference 0 with confirmation. -/
theorem override_never_mutates_input_witness :
    ((handleUserOverrideStore [exampleBlockDecision] 0 true).2)[0]?
      = some exampleBlockDecision :=
  (override_never_mutates_input [exampleBlockDecision] 0 exampleBlockDecision rfl).1

/-- C8: a submission arriving when the queue length has reached the
configured maximum — with the performance monitor attached (as the
extension controller always attaches it), its queue statistics in sync
with the queue, and the same configured maximum (both default to 100) —
is rejected synchronously with the capacity-exceeded error, nothing is
enqueued, and the drop counter is incremented. -/
theorem queue_overflow_rejected_and_counted (st : InterceptorState)
    (prompt : InterceptedPrompt) (now : Nat) (m : MonitorState)
    (hmon : st.performanceMonitor = some m)
    (hsync : m.queueStats.currentSize = st.requestQueue.length)
    (hcap : m.maxQueueSize = st.maxQueueSize)
    (hfull : st.requestQueue.length ≥ st.maxQueueSize) :
    (queuePrompt st prompt false now).1 = QueueResult.capacityExceeded
      ∧ (queuePrompt st prompt false now).2.requestQueue = st.requestQueue
      ∧ (queuePrompt st prompt false now).2.performanceMonitor
          = some (recordDroppedRequest m)
      ∧ (queuePrompt st prompt false now).2.performanceMonitor.map
            (fun mm => mm.queueStats.droppedRequests)
          = some (m.queueStats.droppedRequests + 1) := by
  have hnot : ¬ (m.queueStats.currentSize < m.maxQueueSize) := by
    rw [hsync, hcap]; exact Nat.not_lt.mpr hfull
  have hrej : monitorRejects st.performanceMonitor = true := by
    rw [hmon]; simp [monitorRejects, canAcceptRequest, hnot]
  have h1 : queuePrompt st prompt false now
      = (.capacityExceeded,
         { st with performanceMonitor := st.performanceMonitor.map recordDroppedRequest }) := by
    unfold queuePrompt
    simp [hrej]
  rw [h1, hmon]
  exact ⟨rfl, rfl, rfl, rfl⟩

/-- A monitor at capacity: maximum 1, current size 1. -/
def exampleMonitor : MonitorState := ⟨1, ⟨1, 1, 0, 0⟩⟩

/-- An interceptor state whose queue of one request has reached its
maximum of 1, with `exampleMonitor` attached and in sync. -/
def exampleFullState : InterceptorState :=
  ⟨[⟨examplePrompt, 0⟩], 1, some exampleMonitor⟩

/-- Witness for C8: submitting to the full `exampleFullState` is
rejected and counted. -/
theorem queue_overflow_rejected_and_counted_witness :
    (queuePrompt exampleFullState examplePrompt false 7).1 = QueueResult.capacityExceeded
      ∧ (queuePrompt exampleFullState examplePrompt false 7).2.performanceMonitor.map
            (fun mm => mm.queueStats.droppedRequests) = some 1 := by
  refine ⟨?_, ?_⟩
  · exact (queue_overflow_rejected_and_counted exampleFullState examplePrompt 7
      exampleMonitor rfl rfl rfl (by decide)).1
  · exact (queue_overflow_rejected_and_counted exampleFullState examplePrompt 7
      exampleMonitor rfl rfl rfl (by decide)).2.2.2

/-- A match oracle where only the rule-bypass category fires. -/
def oracleRuleBypassOnly : PatternType → Option String
  | .rule_bypass => some "ignore previous instructions"
  | _ => none

/-- C2 counterexample: the remote classifier is unavailable (the call
fails with connection refused) but the pipeline is not yet in degraded
mode; local detection finds an indicator, yet the produced analysis has
confidence 0.7 — not the claimed 0.6. -/
theorem degraded_confidence_counterexample :
    (detectThreatPatterns oracleRuleBypassOnly).hasThreats = true
      ∧ (pipelineAnalysis false oracleRuleBypassOnly
            (Except.error AnalysisError.connRefused) 5).confidence = 7/10
      ∧ ¬ (pipelineAnalysis false oracleRuleBypassOnly
            (Except.error AnalysisError.connRefused) 5).confidence = 6/10 := by
  have hth : (detectThreatPatterns oracleRuleBypassOnly).hasThreats = true := by decide
  refine ⟨hth, ?_, ?_⟩
  · simp [pipelineAnalysis, analyzePrompt, hth]
  · simp [pipelineAnalysis, analyzePrompt, hth]
    norm_num

/-- C2 (amended): while the pipeline is already in degraded mode it
skips the remote classifier and produces exactly the claimed analysis —
threat level = the local suggested level, confidence 0.6 with indicators
found and 0.3 without, reasoning stating the SLM is unavailable.  When a
remote call instead fails in flight (degraded mode not yet entered), the
analysis keeps the local threat level at the fixed confidence 0.7 when
indicators were found, and falls back to a suspicious analysis at
confidence 0 otherwise. -/
theorem degraded_mode_analysis_spec (oracle : PatternType → Option String)
    (remote : Except AnalysisError (Option JsonValue)) (processingTime : Nat)
    (e : AnalysisError) :
    ((pipelineAnalysis true oracle remote processingTime).threatLevel
        = (detectThreatPatterns oracle).suggestedThreatLevel)
      ∧ ((pipelineAnalysis true oracle remote processingTime).confidence
          = if (detectThreatPatterns oracle).hasThreats then (6 : ℚ)/10 else (3 : ℚ)/10)
      ∧ ((pipelineAnalysis true oracle remote processingTime).reasoning
          = "Local pattern detection only (SLM unavailable)")
      ∧ ((detectThreatPatterns oracle).hasThreats = true →
          (pipelineAnalysis false oracle (Except.error e) processingTime).confidence
              = (7 : ℚ)/10
            ∧ (pipelineAnalysis false oracle (Except.error e) processingTime).threatLevel
                = (detectThreatPatterns oracle).suggestedThreatLevel)
      ∧ ((detectThreatPatterns oracle).hasThreats = false →
          (pipelineAnalysis false oracle (Except.error e) processingTime).threatLevel
              = ThreatLevel.suspicious
            ∧ (pipelineAnalysis false oracle (Except.error e) processingTime).confidence
                = 0) := by
  refine ⟨rfl, rfl, rfl, ?_, ?_⟩
  · intro h
    constructor <;> simp [pipelineAnalysis, analyzePrompt, h]
  · intro h
    constructor <;>
      simp [pipelineAnalysis, analyzePrompt, h, handleAnalysisError]

/-- Witness for C2 (amended): with only the rule-bypass category
matching, the degraded-mode analysis has confidence 0.6 and the
in-flight-failure analysis has confidence 0.7. -/
theorem degraded_mode_analysis_spec_witness :
    (pipelineAnalysis true oracleRuleBypassOnly
        (Except.error AnalysisError.connRefused) 5).confidence = 6/10
      ∧ (pipelineAnalysis false oracleRuleBypassOnly
          (Except.error AnalysisError.connRefused) 5).confidence = 7/10 := by
  constructor
  · have h := (degraded_mode_analysis_spec oracleRuleBypassOnly
      (Except.error AnalysisError.connRefused) 5 AnalysisError.connRefused).2.1
    have hth : (detectThreatPatterns oracleRuleBypassOnly).hasThreats = true := by decide
    rw [h]; simp [hth]
  · exact ((degraded_mode_analysis_spec oracleRuleBypassOnly
      (Except.error AnalysisError.connRefused) 5 AnalysisError.connRefused).2.2.2.1
      (by decide)).1

/-- C6: the merged confidence starts from the remote confidence; with
local threats and a non-safe remote level it is the remote confidence
plus 0.1 capped at 1.0; with local threats against a safe remote level
it is exactly 0.6; otherwise it is the remote confidence unchanged —
and, whenever the remote confidence lies in [0, 1], so does the merged
confidence. -/
theorem merge_confidence_spec (localDetection : LocalDetectionResult)
    (slmAnalysis : SecurityAnalysis) (processingTime : Nat)
    (h0 : 0 ≤ slmAnalysis.confidence) (h1 : slmAnalysis.confidence ≤ 1) :
    (localDetection.hasThreats = true ∧ slmAnalysis.threatLevel ≠ ThreatLevel.safe →
        (mergeAnalysisResults localDetection slmAnalysis processingTime).confidence
          = min 1 (slmAnalysis.confidence + 1/10))
      ∧ (localDetection.hasThreats = true ∧ slmAnalysis.threatLevel = ThreatLevel.safe →
          (mergeAnalysisResults localDetection slmAnalysis processingTime).confidence
            = 6/10)
      ∧ (localDetection.hasThreats = false →
          (mergeAnalysisResults localDetection slmAnalysis processingTime).confidence
            = slmAnalysis.confidence)
      ∧ 0 ≤ (mergeAnalysisResults localDetection slmAnalysis processingTime).confidence
      ∧ (mergeAnalysisResults localDetection slmAnalysis processingTime).confidence ≤ 1 := by
  have hc : (mergeAnalysisResults localDetection slmAnalysis processingTime).confidence
      = if localDetection.hasThreats ∧ slmAnalysis.threatLevel ≠ ThreatLevel.safe then
          min 1 (slmAnalysis.confidence + 1/10)
        else if localDetection.hasThreats ∧ slmAnalysis.threatLevel = ThreatLevel.safe then
          (6 : ℚ)/10
        else slmAnalysis.confidence := rfl
  refine ⟨?_, ?_, ?_, ?_, ?_⟩ <;> rw [hc]
  · rintro ⟨ht, hs⟩
    rw [if_pos ⟨ht, hs⟩]
  · rintro ⟨ht, hs⟩
    rw [if_neg (fun hcon => hcon.2 hs), if_pos ⟨ht, hs⟩]
  · intro hf
    rw [if_neg (fun hcon => Bool.false_ne_true (hf ▸ hcon.1)),
      if_neg (fun hcon => Bool.false_ne_true (hf ▸ hcon.1))]
  · split_ifs with ha hb
    · exact le_min (by norm_num) (by linarith)
    · norm_num
    · exact h0
  · split_ifs with ha hb
    · exact min_le_left _ _
    · norm_num
    · exact h1

/-- A concrete local detection result with one high-severity
rule-bypass indicator. -/
def exampleLocalThreats : LocalDetectionResult :=
  ⟨true,
   [⟨.rule_bypass, "ignore previous instructions", .high,
     "Attempt to bypass or ignore system rules and instructions"⟩],
   .dangerous⟩

/-- A concrete remote analysis agreeing that the prompt is dangerous. -/
def exampleRemoteAnalysis : SecurityAnalysis :=
  ⟨.dangerous, 85/100, [], "clear manipulation attempt", 12⟩

/-- Witness for C6: local threats corroborated by a dangerous remote
analysis at confidence 0.85 merge to confidence 0.95. -/
theorem merge_confidence_spec_witness :
    (mergeAnalysisResults exampleLocalThreats exampleRemoteAnalysis 12).confidence
      = 95/100 := by
  have h := (merge_confidence_spec exampleLocalThreats exampleRemoteAnalysis 12
    (by norm_num [exampleRemoteAnalysis]) (by norm_num [exampleRemoteAnalysis])).1
    ⟨rfl, by decide⟩
  rw [h]
  rw [show exampleRemoteAnalysis.confidence = 85/100 from rfl]
  rw [min_eq_right (by norm_num)]
  norm_num

/-- C7: remote-reply validation.  An unparseable body yields the
suspicious/0.5 analysis with the parse-failure reasoning; a parsed reply
is normalized field-wise; a threat level outside the three enum strings
defaults to suspicious; a confidence that is not a number in [0, 1]
defaults to 0.5; non-object indicator entries are dropped while
object entries are kept and coerced; and unknown category or severity
strings coerce to rule_bypass and medium. -/
theorem parse_response_normalization (processingTime : Nat) :
    (parseAnalysisResponse none processingTime
        = ⟨.suspicious, 1/2, [], "Failed to parse security analysis response",
           processingTime⟩)
      ∧ (∀ j : JsonValue,
          parseAnalysisResponse (some j) processingTime
            = ⟨normalizeThreatlevel (j.getField "threatLevel"),
               normalizeConfidence (j.getField "confidence"),
               normalizePatterns (j.getField "detectedPatterns"),
               reasoningField (j.getField "reasoning"), processingTime⟩)
      ∧ (∀ v : Option JsonValue,
          v ≠ some (.str "safe") → v ≠ some (.str "suspicious") →
          v ≠ some (.str "dangerous") →
          normalizeThreatlevel v = ThreatLevel.suspicious)
      ∧ (∀ v : Option JsonValue,
          (∀ q : ℚ, v = some (.num q) → ¬ (0 ≤ q ∧ q ≤ 1)) →
          normalizeConfidence v = 1/2)
      ∧ (∀ (v : JsonValue) (entries : List JsonValue),
          (isObjectLike v = false →
            normalizePatterns (some (.arr (v :: entries)))
              = normalizePatterns (some (.arr entries)))
          ∧ (isObjectLike v = true →
            normalizePatterns (some (.arr (v :: entries)))
              = normalizePatternEntry v :: normalizePatterns (some (.arr entries))))
      ∧ (∀ v : Option JsonValue,
          v ≠ some (.str "rule_bypass") → v ≠ some (.str "secret_extraction") →
          v ≠ some (.str "command_injection") → v ≠ some (.str "role_manipulation") →
          normalizePatternType v = PatternType.rule_bypass)
      ∧ (∀ v : Option JsonValue,
          v ≠ some (.str "low") → v ≠ some (.str "medium") → v ≠ some (.str "high") →
          normalizeSeverity v = Severity.medium) := by
  refine ⟨rfl, fun j => rfl, ?_, ?_, ?_, ?_, ?_⟩
  · intro v h1 h2 h3
    rcases v with _ | j
    · rfl
    rcases j with _ | b | q | s | es | fs
    · rfl
    · rfl
    · rfl
    · show (if s = "safe" then ThreatLevel.safe
        else if s = "suspicious" then ThreatLevel.suspicious
        else if s = "dangerous" then ThreatLevel.dangerous
        else ThreatLevel.suspicious) = ThreatLevel.suspicious
      split_ifs with hs1 hs2 hs3
      · exact absurd (by rw [hs1]) h1
      · rfl
      · exact absurd (by rw [hs3]) h3
      · rfl
    · rfl
    · rfl
  · intro v h
    rcases v with _ | j
    · rfl
    rcases j with _ | b | q | s | es | fs
    · rfl
    · rfl
    · show (if 0 ≤ q ∧ q ≤ 1 then q else 1/2) = 1/2
      exact if_neg (h q rfl)
    · rfl
    · rfl
    · rfl
  · intro v entries
    constructor
    · intro hv
      show ((v :: entries).filter isObjectLike).map normalizePatternEntry
        = (entries.filter isObjectLike).map normalizePatternEntry
      rw [List.filter_cons_of_neg (by simp [hv])]
    · intro hv
      show ((v :: entries).filter isObjectLike).map normalizePatternEntry
        = normalizePatternEntry v :: (entries.filter isObjectLike).map normalizePatternEntry
      rw [List.filter_cons_of_pos (by rw [hv])]
      rfl
  · intro v h1 h2 h3 h4
    rcases v with _ | j
    · rfl
    rcases j with _ | b | q | s | es | fs
    · rfl
    · rfl
    · rfl
    · show (if s = "rule_bypass" then PatternType.rule_bypass
        else if s = "secret_extraction" then PatternType.secret_extraction
        else if s = "command_injection" then PatternType.command_injection
        else if s = "role_manipulation" then PatternType.role_manipulation
        else PatternType.rule_bypass) = PatternType.rule_bypass
      split_ifs with hs1 hs2 hs3 hs4
      · rfl
      · exact absurd (by rw [hs2]) h2
      · exact absurd (by rw [hs3]) h3
      · exact absurd (by rw [hs4]) h4
      · rfl
    · rfl
    · rfl
  · intro v h1 h2 h3
    rcases v with _ | j
    · rfl
    rcases j with _ | b | q | s | es | fs
    · rfl
    · rfl
    · rfl
    · show (if s = "low" then Severity.low
        else if s = "medium" then Severity.medium
        else if s = "high" then Severity.high
        else Severity.medium) = Severity.medium
      split_ifs with hs1 hs2 hs3
      · exact absurd (by rw [hs1]) h1
      · rfl
      · exact absurd (by rw [hs3]) h3
      · rfl
    · rfl
    · rfl

/-- Witness for C7: an unknown threat level, an out-of-range
confidence, a primitive (dropped) indicator entry and unknown
category/severity strings, all at concrete values. -/
theorem parse_response_normalization_witness :
    normalizeThreatlevel (some (JsonValue.str "catastrophic")) = ThreatLevel.suspicious
      ∧ normalizeConfidence (some (JsonValue.num 7)) = 1/2
      ∧ normalizePatterns (some (JsonValue.arr [JsonValue.num 3]))
          = normalizePatterns (some (JsonValue.arr []))
      ∧ normalizePatternType (some (JsonValue.str "weird")) = PatternType.rule_bypass
      ∧ normalizeSeverity (some (JsonValue.str "extreme")) = Severity.medium := by
  refine ⟨?_, ?_, ?_, ?_, ?_⟩
  · exact (parse_response_normalization 0).2.2.1 _ (by simp) (by simp) (by simp)
  · exact (parse_response_normalization 0).2.2.2.1 _
      (by rintro q hq
          simp only [Option.some.injEq, JsonValue.num.injEq] at hq
          subst hq
          norm_num)
  · exact ((parse_response_normalization 0).2.2.2.2.1 (JsonValue.num 3) []).1 rfl
  · exact (parse_response_normalization 0).2.2.2.2.2.1 _
      (by simp) (by simp) (by simp) (by simp)
  · exact (parse_response_normalization 0).2.2.2.2.2.2 _ (by simp) (by simp) (by simp)

/-- Helper: the detector's running maximum severity records exactly
whether a high-severity indicator has been collected, for every rule
list and every starting accumulator satisfying the same invariant. -/
theorem detect_fold_high_invariant (oracle : PatternType → Option String)
    (defs : List ThreatPatternDefinition) (acc : List ThreatPattern × Severity)
    (hacc : acc.2 = Severity.high
      ↔ acc.1.any (fun p => p.severity = Severity.high) = true) :
    (defs.foldl (detectStep oracle) acc).2 = Severity.high
      ↔ (defs.foldl (detectStep oracle) acc).1.any
          (fun p => p.severity = Severity.high) = true := by
  induction defs generalizing acc with
  | nil => exact hacc
  | cons pd rest ih =>
      rw [List.foldl_cons]
      apply ih
      rcases hmatch : oracle pd.type with _ | s
      · have hstep : detectStep oracle acc pd = acc := by
          unfold detectStep; rw [hmatch]
        rw [hstep]; exact hacc
      · have hstep : detectStep oracle acc pd
            = (acc.1 ++ [⟨pd.type, s, pd.severity, pd.description⟩],
               if pd.severity = Severity.high then Severity.high
               else if pd.severity = Severity.medium ∧ acc.2 ≠ Severity.high then
                 Severity.medium
               else acc.2) := by
          unfold detectStep; rw [hmatch]
        rw [hstep]
        by_cases hh : acc.2 = Severity.high
        · have hone := hacc.mp hh
          rcases hsev : pd.severity <;> simp [List.any_append, hh, hone]
        · have hnone : ¬ ((acc.1.any fun p => decide (p.severity = Severity.high)) = true) :=
            fun hcon => hh (hacc.mpr hcon)
          rcases hsev : pd.severity <;> simp [List.any_append, hh, hnone]

/-- Helper: the source's level classification agrees with the spec's
rules whenever the maximum-severity argument records the presence of a
high-severity indicator. -/
theorem classify_eq_spec (ps : List ThreatPattern) (m : Severity)
    (hhigh : m = Severity.high
      ↔ ps.any (fun p => p.severity = Severity.high) = true) :
    classifyThreatLevel ps m = specLevelRules ps := by
  unfold classifyThreatLevel specLevelRules
  by_cases hnil : ps = []
  · subst hnil; rfl
  · rw [if_neg (fun h => hnil (List.length_eq_zero.mp h)), if_neg hnil]
    by_cases h2 : (ps.filter (fun p => p.severity = Severity.high)).length ≥ 2
        ∨ ((ps.map (·.type)).dedup).length ≥ 3
    · rw [if_pos h2, if_pos h2]
    · rw [if_neg h2, if_neg h2]
      by_cases hh : m = Severity.high
      · rw [if_pos hh]
        rw [if_pos (show (ps.any fun p => decide (p.severity = Severity.high)) = true from
          hhigh.mp hh)]
      · rw [if_neg hh]
        rw [if_neg (show ¬ ((ps.any fun p => decide (p.severity = Severity.high)) = true) from
          fun ha => hh (hhigh.mpr ha))]
        split_ifs <;> rfl

/-- Helper: the classification never returns safe on a non-empty
indicator list. -/
theorem classify_ne_safe (ps : List ThreatPattern) (m : Severity) (h : ps ≠ []) :
    classifyThreatLevel ps m ≠ ThreatLevel.safe := by
  unfold classifyThreatLevel
  rw [if_neg (fun hl => h (List.length_eq_zero.mp hl))]
  split_ifs <;> decide

/-- C4: for every match oracle (hence every string input), the Pattern
Detector's suggested level equals the spec's rules 1-5 applied to the
recorded indicators; it never returns safe once any indicator fired;
and an input matching no rule set yields an empty indicator list with
level safe. -/
theorem detector_level_follows_spec (oracle : PatternType → Option String) :
    (detectThreatPatterns oracle).suggestedThreatLevel
        = specLevelRules (detectThreatPatterns oracle).detectedPatterns
      ∧ ((detectThreatPatterns oracle).detectedPatterns ≠ [] →
          (detectThreatPatterns oracle).suggestedThreatLevel ≠ ThreatLevel.safe)
      ∧ ((∀ t, oracle t = none) →
          (detectThreatPatterns oracle).detectedPatterns = []
            ∧ (detectThreatPatterns oracle).suggestedThreatLevel = ThreatLevel.safe) := by
  refine ⟨?_, ?_, ?_⟩
  · exact classify_eq_spec _ _
      (detect_fold_high_invariant oracle ALL_THREAT_PATTERNS ([], Severity.low) (by simp))
  · intro hne
    exact classify_ne_safe _ _ hne
  · intro hall
    have hfold : ALL_THREAT_PATTERNS.foldl (detectStep oracle) ([], Severity.low)
        = ([], Severity.low) := by
      simp [ALL_THREAT_PATTERNS, detectStep, hall]
    constructor
    · show (ALL_THREAT_PATTERNS.foldl (detectStep oracle) ([], Severity.low)).1 = []
      rw [hfold]
    · show classifyThreatLevel
        (ALL_THREAT_PATTERNS.foldl (detectStep oracle) ([], Severity.low)).1
        (ALL_THREAT_PATTERNS.foldl (detectStep oracle) ([], Severity.low)).2
        = ThreatLevel.safe
      rw [hfold]
      rfl

/-- Witness for C4: with only the rule-bypass category matching the
level is not safe, and with no category matching the detector returns no
indicators and level safe. -/
theorem detector_level_follows_spec_witness :
    (detectThreatPatterns oracleRuleBypassOnly).suggestedThreatLevel ≠ ThreatLevel.safe
      ∧ (detectThreatPatterns (fun _ => none)).detectedPatterns = []
      ∧ (detectThreatPatterns (fun _ => none)).suggestedThreatLevel
          = ThreatLevel.safe := by
  refine ⟨?_, ?_, ?_⟩
  · exact (detector_level_follows_spec oracleRuleBypassOnly).2.1 (by decide)
  · exact ((detector_level_follows_spec (fun _ => none)).2.2 (fun t => rfl)).1
  · exact ((detector_level_follows_spec (fun _ => none)).2.2 (fun t => rfl)).2
